import Mathlib

/-!
Shallow embedding of the authentication core of the student_history
repository (src/auth/middleware.py, src/auth/token_auth.py,
src/auth/telegram_auth.py, src/auth/session.py, src/middleware/csrf.py,
src/middleware/rate_limit.py, src/app.py, src/models.py).

Conventions of the embedding:
* `datetime.utcnow()` is passed in explicitly as `now : Nat` (seconds);
  the rate limiter uses `Int` timestamps so that window arithmetic is exact.
* The database session is a value of type `DB`; SQLAlchemy queries without
  an `order_by` return rows in insertion (primary-key/creation) order, so
  each table is a `List` kept in creation order and `.first()` / `.all()`
  become `List.find?` / `List.filter`.
* Stateful code is explicit state passing: functions that commit writes
  return the updated `DB` next to their result.
* Python truthiness of strings/ints (empty string and 0 are falsy) is
  spelled out at each use site.
-/

namespace StudentHistory

/-- `models.Student` — the students table. -/
structure Student where
  id : Nat
  slug : String
  full_name : String
  google_sheet_name : String
  is_active : Bool
deriving DecidableEq, Repr

/-- `models.TelegramAuth` — bindings of one telegram_id to one student;
the pair (telegram_id, student_id) is unique in the schema. -/
structure TelegramAuth where
  id : Nat
  student_id : Nat
  telegram_id : String
  telegram_username : Option String
  telegram_first_name : Option String
  telegram_last_name : Option String
  linked_at : Nat
  last_auth_at : Nat
  is_active : Bool
deriving DecidableEq, Repr

/-- `models.PendingTelegramLink` — unlinked telegram accounts awaiting
operator action; telegram_id is unique in the schema. -/
structure PendingTelegramLink where
  id : Nat
  telegram_id : String
  telegram_username : Option String
  telegram_first_name : Option String
  telegram_last_name : Option String
  first_attempt_at : Nat
  last_attempt_at : Nat
  attempt_count : Nat
  ip_address : Option String
deriving DecidableEq, Repr

/-- `models.AccessToken` — UUID tokens; the token string is unique in the
schema, `expires_at = none` means the token never expires. -/
structure AccessToken where
  id : Nat
  student_id : Nat
  token : String
  created_at : Nat
  expires_at : Option Nat
  last_used_at : Option Nat
  is_active : Bool
deriving DecidableEq, Repr

/-- The database session state: each table as a list in creation order. -/
structure DB where
  students : List Student
  telegram_auths : List TelegramAuth
  access_tokens : List AccessToken
  pending_links : List PendingTelegramLink
deriving DecidableEq, Repr

/-- `AccessToken.is_expired` (models.py): expiry `None` never expires,
otherwise expired iff `datetime.utcnow() > expires_at`. -/
def AccessToken.is_expired (tok : AccessToken) (now : Nat) : Bool :=
  match tok.expires_at with
  | none => false
  | some e => now > e

/-- ORM relationship `ta.student` / `token.student`: the row of `students`
with the given primary key. -/
def getStudent (db : DB) (sid : Nat) : Option Student :=
  db.students.find? (fun s => s.id == sid)

/-- `ta.student.is_active` as a Boolean: the referenced student row exists
and is active (the foreign key guarantees existence in a well-formed DB). -/
def studentActive (db : DB) (sid : Nat) : Bool :=
  match getStudent db sid with
  | some s => s.is_active
  | none => false

/-- `TokenAuthValidator.validate_token` (token_auth.py): look up an active
token row by exact string, reject if expired, reject if the bound student
is missing or inactive; on success stamp `last_used_at` and return the
student together with the committed session. -/
def validate_token (db : DB) (token : String) (now : Nat) :
    Option Student × DB :=
  match db.access_tokens.find? (fun t => t.token == token && t.is_active) with
  | none => (none, db)
  | some tok =>
    if tok.is_expired now then (none, db)
    else
      match db.students.find? (fun s => s.id == tok.student_id && s.is_active) with
      | none => (none, db)
      | some s =>
        (some s,
         { db with
             access_tokens := db.access_tokens.map
               (fun t => if t.id == tok.id then { t with last_used_at := some now } else t) })

/-! ## Telegram initData validator (src/auth/telegram_auth.py)

`validate_init_data` is embedded over the already-parsed query-string
dictionary (`dict(parse_qsl(init_data))` is a Python library call; the
dictionary has unique keys).  The two external primitives it calls are
abstracted as function parameters:
* `hmacHex key msg` — `hmac.new(key, msg, sha256).hexdigest()` (the
  derived `secret_key` is likewise produced by `hmacHex "WebAppData"
  bot_token`; a digest reused as a key is carried as its hex string);
* `jsonLoads s` — `json.loads(s)` followed by the `.get` field reads;
  `none` models a raised exception (caught by the `except` handler) or a
  non-dict result.
All theorems about it quantify over these parameters, so nothing proved
below depends on properties of SHA-256 or of the JSON grammar. -/

/-- The fields read from the JSON-decoded `user` parameter
(`user_data.get('id'/'username'/'first_name'/'last_name')`). -/
structure PyUser where
  id : Option Int
  username : Option String
  first_name : Option String
  last_name : Option String
deriving DecidableEq, Repr

/-- The dictionary returned by `validate_init_data` on success. -/
structure ValidatedUser where
  telegram_id : String
  username : Option String
  first_name : Option String
  last_name : Option String
  auth_date : Int
deriving DecidableEq, Repr

/-- Python `str` applied to `user_data.get('id')`: `str(None) = "None"`,
`str(n)` is the decimal rendering. -/
def pyStr : Option Int → String
  | some n => toString n
  | none => "None"

/-- Dictionary lookup `params.get(k)` on the parsed init data. -/
def lookupParam (params : List (String × String)) (k : String) : Option String :=
  (params.find? (fun p => p.1 == k)).map (fun p => p.2)

/-- Decimal value of an all-digit character list: what Python `int`
returns on a string that passed `isdigit`.  (Strings are handled through
their character lists so that everything evaluates by kernel
reduction.) -/
def digitsToNat (cs : List Char) : Nat :=
  cs.foldl (fun acc c => acc * 10 + (c.toNat - 48)) 0

/-- Value of a non-empty all-digit character list, `none` otherwise. -/
def digitsVal (cs : List Char) : Option Nat :=
  if !cs.isEmpty && cs.all Char.isDigit then some (digitsToNat cs) else none

/-- Python `int(s)` on the `auth_date` string: an optional sign followed
by at least one digit; anything else raises, modelled as `none` and
caught by the surrounding `except` handler.  (Python additionally strips
whitespace and allows underscore separators; Telegram never sends such
strings and they are not modelled.) -/
def pyInt (cs : List Char) : Option Int :=
  match cs with
  | '-' :: rest => (digitsVal rest).map (fun n => -(n : Int))
  | '+' :: rest => (digitsVal rest).map (fun n => (n : Int))
  | rest => (digitsVal rest).map (fun n => (n : Int))

/-- `int(params.get('auth_date', 0))`: missing key defaults to `0`;
a non-numeric string raises (modelled as `none`, caught by the handler). -/
def parse_auth_date (params : List (String × String)) : Option Int :=
  match lookupParam params "auth_date" with
  | none => some 0
  | some s => pyInt s.data

/-- `TelegramAuthValidator.validate_init_data` (telegram_auth.py):
pop `hash`, reject a stale `auth_date` (replay window, default 3600 s),
recompute the HMAC over the sorted `k=v` check-string with the derived
key, compare with the received hash, then decode the `user` JSON.
Dictionary keys are unique, so sorting the items coincides with sorting
by key. -/
def validate_init_data (hmacHex : String → String → String)
    (jsonLoads : String → Option PyUser) (bot_token : String)
    (params : List (String × String)) (now : Int) (max_age : Int := 3600) :
    Option ValidatedUser :=
  match lookupParam params "hash" with
  | none => none
  | some received_hash =>
    let rest := params.filter (fun p => p.1 != "hash")
    match parse_auth_date rest with
    | none => none
    | some auth_date =>
      if max_age < now - auth_date then none
      else
        let data_check_string := String.intercalate (String.singleton '\n')
          ((rest.insertionSort (fun p q => p.1 < q.1)).map
            (fun p => p.1 ++ "=" ++ p.2))
        let secret_key := hmacHex "WebAppData" bot_token
        let calculated_hash := hmacHex secret_key data_check_string
        if calculated_hash != received_hash then none
        else
          match jsonLoads ((lookupParam rest "user").getD "\x7b\x7d") with
          | none => none
          | some u =>
            some ⟨pyStr u.id, u.username, u.first_name, u.last_name, auth_date⟩

/-! ## Session cookies (src/auth/session.py) and the request signals -/

/-- The credential signals of one inbound request, as read by
`get_current_student`: the `token` query parameter, the
`X-Telegram-Init-Data` header, and the three cookies.  `none` means the
parameter/header/cookie is absent. -/
structure Request where
  url_token : Option String
  init_data : Option String
  cookie_telegram_id : Option String
  cookie_selected_student_id : Option String
  cookie_access_token : Option String
deriving DecidableEq, Repr

/-- `get_telegram_session` (session.py): return the raw `telegram_id`
cookie and the `selected_student_id` cookie parsed as an int; a cookie
that is empty or not entirely digits is treated as absent
(`selected_str and selected_str.isdigit()`). -/
def get_telegram_session (req : Request) : Option String × Option Nat :=
  (req.cookie_telegram_id,
   match req.cookie_selected_student_id with
   | none => none
   | some s =>
     if !s.data.isEmpty && s.data.all Char.isDigit then
       some (digitsToNat s.data)
     else none)

/-! ## AuthResolver (src/auth/middleware.py, get_current_student)

The four priority steps of `get_current_student` are factored into one
definition per step; Python falls through a skipped `if` block, which in
Lean becomes a call to the next step's definition.  Each step returns the
resolved student (or `none`) together with the session state after any
committed bookkeeping write. -/

/-- `os.getenv('TELEGRAM_BOT_TOKEN')` is configured: present, non-empty
and not the placeholder value. -/
def bot_configured : Option String → Bool
  | some s => s != "" && s != "YOUR_TELEGRAM_BOT_TOKEN_HERE"
  | none => false

/-- The active bindings for a telegram id whose student is also active:
the `TelegramAuth` query filtered on `telegram_id` and `is_active`, fused
with the comprehension `[ta for ta in ... if ta.student.is_active]`.
List order is creation order (the query has no `order_by`). -/
def activeAuths (db : DB) (tid : String) : List TelegramAuth :=
  db.telegram_auths.filter
    (fun ta => ta.telegram_id == tid && ta.is_active && studentActive db ta.student_id)

/-- Commit `ta.last_auth_at = datetime.utcnow()` for the binding with the
given primary key. -/
def touch_auth (db : DB) (auth_id : Nat) (now : Nat) : DB :=
  { db with
      telegram_auths := db.telegram_auths.map
        (fun ta => if ta.id == auth_id then { ta with last_auth_at := now } else ta) }

/-- Step 2 body once `validate_init_data` succeeded (middleware.py lines
72–126): gather the active bindings, pick the student (single binding;
or the cookie-selected one among the bindings; or the first binding),
stamp `last_auth_at` on the matching binding and return the student;
zero bindings resolve to `None` with no fallback. -/
def resolve_validated_user (db : DB) (now : Nat) (req : Request)
    (user : ValidatedUser) : Option Student × DB :=
  let active_auths := activeAuths db user.telegram_id
  if active_auths.isEmpty then (none, db)
  else
    let selected_student : Option Student :=
      if active_auths.length == 1 then
        active_auths.head?.bind (fun ta => getStudent db ta.student_id)
      else
        let sel := (get_telegram_session req).2
        let fromCookie : Option Student :=
          match sel with
          | some n =>
            if n != 0 then
              (active_auths.find? (fun ta => ta.student_id == n)).bind
                (fun ta => getStudent db ta.student_id)
            else none
          | none => none
        match fromCookie with
        | some s => some s
        | none => active_auths.head?.bind (fun ta => getStudent db ta.student_id)
    match selected_student with
    | some s =>
      let db' :=
        match active_auths.find? (fun ta => ta.student_id == s.id) with
        | some ta => touch_auth db ta.id now
        | none => db
      (some s, db')
    | none => (none, db)

/-- Step 4 (middleware.py lines 154–166): the `access_token` cookie,
validated exactly like the URL case; an invalid cookie token reaches the
final `return None`. -/
def resolve_cookie_token (db : DB) (now : Nat) (req : Request) :
    Option Student × DB :=
  match req.cookie_access_token with
  | some t =>
    if t != "" then
      match validate_token db t now with
      | (some s, db2) => (some s, db2)
      | (none, db2) => (none, db2)
    else (none, db)
  | none => (none, db)

/-- Step 3 (middleware.py lines 128–152): when both telegram session
cookies are truthy, require the exact active (telegram_id, student_id)
binding with an active student; a missing binding returns `None` with no
fallback to the token cookie.  When either cookie is falsy, fall through
to step 4. -/
def cookie_fallback (db : DB) (now : Nat) (req : Request) :
    Option Student × DB :=
  match get_telegram_session req with
  | (some ctid, some sel) =>
    if ctid != "" && sel != 0 then
      match db.telegram_auths.find?
          (fun ta => ta.telegram_id == ctid && ta.student_id == sel && ta.is_active) with
      | some ta =>
        if studentActive db ta.student_id then
          (getStudent db ta.student_id, touch_auth db ta.id now)
        else (none, db)
      | none => (none, db)
    else resolve_cookie_token db now req
  | _ => resolve_cookie_token db now req

/-- Step 2 shell (middleware.py lines 63–126): a truthy header is
validated only when the bot token is configured; a failed validation or
an unconfigured bot falls through to the cookie steps. -/
def resolve_init_data (bot_token : Option String)
    (validate : String → Option ValidatedUser) (db : DB) (now : Nat)
    (req : Request) (raw : String) : Option Student × DB :=
  if bot_configured bot_token then
    match validate raw with
    | some user => resolve_validated_user db now req user
    | none => cookie_fallback db now req
  else cookie_fallback db now req

/-- Steps 2–4 of `get_current_student`, reached when no truthy URL token
is present. -/
def resolve_after_url (bot_token : Option String)
    (validate : String → Option ValidatedUser) (db : DB) (now : Nat)
    (req : Request) : Option Student × DB :=
  match req.init_data with
  | some raw =>
    if raw != "" then resolve_init_data bot_token validate db now req raw
    else cookie_fallback db now req
  | none => cookie_fallback db now req

/-- `get_current_student` (middleware.py): the full priority-ordered
resolution.  `validate` stands for
`TelegramAuthValidator(bot_token).validate_init_data` applied to the raw
header string.  Step 1: a truthy `token` query parameter is validated and
its failure is terminal (no fallback). -/
def get_current_student (bot_token : Option String)
    (validate : String → Option ValidatedUser) (db : DB) (now : Nat)
    (req : Request) : Option Student × DB :=
  match req.url_token with
  | some t =>
    if t != "" then
      match validate_token db t now with
      | (some s, db2) => (some s, db2)
      | (none, db2) => (none, db2)
    else resolve_after_url bot_token validate db now req
  | none => resolve_after_url bot_token validate db now req

/-! ## CSRF guard (src/middleware/csrf.py) -/

/-- `require_csrf`: `true` means the dependency returns (request allowed),
`false` means it raises `HTTPException(403)`.  The guard only tests the
truthiness of the `X-Telegram-Init-Data` header and equality of the
`X-Requested-With` header with `"XMLHttpRequest"`; it performs no
signature validation. -/
def require_csrf (init_data_header : Option String)
    (x_requested_with : Option String) : Bool :=
  (match init_data_header with
   | some s => s != ""
   | none => false)
  || (x_requested_with == some "XMLHttpRequest")

/-! ## Rate limiter (src/middleware/rate_limit.py)

`self.requests` is a `defaultdict(list)` from client IP to timestamps;
it is modelled as an association list (first binding wins), assignment
re-binds the key at the front.  Timestamps are `Int` seconds so the
`now - timedelta(minutes=1)` cutoff is exact. -/

structure RateLimiterState where
  requests : List (String × List Int)
deriving DecidableEq, Repr

/-- The fresh limiter: an empty `defaultdict(list)`. -/
def RateLimiterState.empty : RateLimiterState := ⟨[]⟩

/-- Read `self.requests[ip]` (a missing key defaults to `[]`). -/
def getReqs (st : RateLimiterState) (ip : String) : List Int :=
  ((st.requests.find? (fun p => p.1 == ip)).map (fun p => p.2)).getD []

/-- Assign `self.requests[ip] = l`. -/
def setReqs (st : RateLimiterState) (ip : String) (l : List Int) :
    RateLimiterState :=
  ⟨(ip, l) :: st.requests.filter (fun p => p.1 != ip)⟩

/-- `RateLimiter.check_rate_limit`: evict timestamps older than one
minute, then raise 429 (`false`) when the window already holds
`requests_per_minute` entries, otherwise record the call (`true`).  The
pruned list is written back in both cases, exactly as the Python
assignment happens before the limit test. -/
def check_rate_limit (cap : Nat) (st : RateLimiterState) (ip : String)
    (now : Int) : Bool × RateLimiterState :=
  let pruned := (getReqs st ip).filter (fun t => t > now - 60)
  if cap ≤ pruned.length then (false, setReqs st ip pruned)
  else (true, setReqs st ip (pruned ++ [now]))

/-- Fold a sequence of timestamped calls from one client through the
limiter (states the window properties of `check_rate_limit`). -/
def rl_run (cap : Nat) (ip : String) : List Int → RateLimiterState →
    RateLimiterState
  | [], st => st
  | t :: ts, st => rl_run cap ip ts (check_rate_limit cap st ip t).2

/-- The pass/throttle verdicts of a sequence of timestamped calls from
one client. -/
def rl_results (cap : Nat) (ip : String) : List Int → RateLimiterState →
    List Bool
  | [], _ => []
  | t :: ts, st =>
    (check_rate_limit cap st ip t).1 ::
      rl_results cap ip ts (check_rate_limit cap st ip t).2

/-! ## POST /auth/telegram (src/app.py, telegram_auth) -/

/-- The JSON outcomes of the `/auth/telegram` endpoint (cookie headers of
the success response are not part of the decision being verified). -/
inductive TgAuthResult where
  | missingInitData
  | notConfigured
  | invalidInitData
  | notLinked
  | multipleStudents (student_ids : List Nat)
  | success (student_id : Nat)
deriving DecidableEq, Repr

/-- Update the first list entry satisfying `p` (SQLAlchemy `.first()`
followed by attribute writes on the returned row). -/
def update_first (p : α → Bool) (f : α → α) : List α → List α
  | [] => []
  | a :: l => if p a then f a :: l else a :: update_first p f l

/-- Autoincrement primary key for a new `pending_telegram_links` row. -/
def next_pending_id (db : DB) : Nat :=
  (db.pending_links.map (fun p => p.id)).foldr (fun i m => max (i + 1) m) 1

/-- `telegram_auth` (app.py): validate the header, collect the active
bindings with active students; on zero matches record/refresh the
`PendingTelegramLink` for this telegram id and report not linked; on one
match succeed; on several return the selection list.  Matched bindings
get their telegram metadata and `last_auth_at` refreshed. -/
def telegram_auth (bot_token : Option String)
    (validate : String → Option ValidatedUser) (db : DB) (now : Nat)
    (ip : Option String) (init_data : Option String) : TgAuthResult × DB :=
  match init_data with
  | none => (.missingInitData, db)
  | some raw =>
    if raw == "" then (.missingInitData, db)
    else if !bot_configured bot_token then (.notConfigured, db)
    else
      match validate raw with
      | none => (.invalidInitData, db)
      | some user =>
        match activeAuths db user.telegram_id with
        | [] =>
          let db' :=
            match db.pending_links.find? (fun p => p.telegram_id == user.telegram_id) with
            | some _ =>
              { db with
                  pending_links := update_first
                    (fun p => p.telegram_id == user.telegram_id)
                    (fun p =>
                      { p with
                          last_attempt_at := now,
                          attempt_count := p.attempt_count + 1,
                          telegram_username := user.username,
                          telegram_first_name := user.first_name,
                          telegram_last_name := user.last_name })
                    db.pending_links }
            | none =>
              { db with
                  pending_links := db.pending_links ++
                    [{ id := next_pending_id db,
                       telegram_id := user.telegram_id,
                       telegram_username := user.username,
                       telegram_first_name := user.first_name,
                       telegram_last_name := user.last_name,
                       first_attempt_at := now,
                       last_attempt_at := now,
                       attempt_count := 1,
                       ip_address := ip }] }
          (.notLinked, db')
        | r :: rs =>
          let matched := activeAuths db user.telegram_id
          let db' :=
            { db with
                telegram_auths := db.telegram_auths.map
                  (fun ta =>
                    if matched.any (fun m => m.id == ta.id) then
                      { ta with
                          last_auth_at := now,
                          telegram_username := user.username,
                          telegram_first_name := user.first_name,
                          telegram_last_name := user.last_name }
                    else ta) }
          if rs.isEmpty then (.success r.student_id, db')
          else (.multipleStudents ((r :: rs).map (fun m => m.student_id)), db')

/-! ## Concrete sample data used by witnesses and counterexamples -/

/-- An active student. -/
def sW : Student := ⟨1, "ivan", "Ivan Ivanov", "Ivan", true⟩

/-- A second active student. -/
def sBobW : Student := ⟨2, "bob", "Bob Borisov", "Bob", true⟩

/-- A deactivated student. -/
def sInactW : Student := ⟨3, "maria", "Maria M", "Maria", false⟩

/-- A never-expiring active token for `sW`. -/
def tokW : AccessToken := ⟨1, 1, "tok1", 0, none, none, true⟩

/-- An active token for `sW` that expired at time 10. -/
def tokExpW : AccessToken := ⟨2, 1, "tokexp", 0, some 10, none, true⟩

/-- A valid, active, never-expiring token bound to the deactivated
student `sInactW`. -/
def tokInactStudentW : AccessToken := ⟨3, 3, "tokin", 0, none, none, true⟩

/-- Sample database for the token claims. -/
def dbW : DB := ⟨[sW, sBobW, sInactW], [], [tokW, tokExpW, tokInactStudentW], []⟩

/-- A validator that rejects every payload. -/
def vNoneW : String → Option ValidatedUser := fun _ => none

/-- A concrete stand-in for `hmac.new(...).hexdigest()`. -/
def hmacW : String → String → String := fun _ _ => "sig"

/-- A concrete stand-in for `json.loads` that always raises. -/
def jsonNoneW : String → Option PyUser := fun _ => none

/-- The real `validate_init_data` applied to the parse of a payload
string that carries no key=value pairs (`dict(parse_qsl("junk")) = {}`,
since `"junk"` contains no `=`): every such payload fails validation
because the `hash` field is missing. -/
def emptyPayloadValidator : String → Option ValidatedUser :=
  fun _ => validate_init_data hmacW jsonNoneW "BOT" [] 100

/-- Request carrying an invalid signed payload and a valid token cookie. -/
def reqC1W : Request := ⟨none, some "junk", none, none, some "tok1"⟩

/-- Request with the empty URL token (`?token=`) and a valid token cookie. -/
def reqC3W : Request := ⟨some "", none, none, none, some "tok1"⟩

/-- Request with a non-empty invalid URL token and a valid token cookie. -/
def reqC3bW : Request := ⟨some "zzz", none, none, none, some "tok1"⟩

/-- telegram_id "555" bound to student 1 (created first). -/
def ta1W : TelegramAuth := ⟨1, 1, "555", none, none, none, 0, 0, true⟩

/-- telegram_id "555" also bound to student 2 (created second). -/
def ta2W : TelegramAuth := ⟨2, 2, "555", none, none, none, 0, 0, true⟩

/-- Database where telegram id "555" matches two active students. -/
def dbMW : DB := ⟨[sW, sBobW], [ta1W, ta2W], [], []⟩

/-- A validator accepting every payload as telegram user "555". -/
def vOKW : String → Option ValidatedUser :=
  fun _ => some ⟨"555", none, none, none, 0⟩

/-- Signed-payload request with no selection cookie. -/
def reqNoSelW : Request := ⟨none, some "good", none, none, none⟩

/-- Signed-payload request whose selection cookie names student 2. -/
def reqSelBobW : Request := ⟨none, some "good", none, some "2", none⟩

/-- Database with one student and no telegram bindings (for the
pending-link claim). -/
def dbPW : DB := ⟨[sW], [], [], []⟩

/-- Request with a dangling `telegram_id` cookie, a malformed
`selected_student_id` cookie and a valid token cookie. -/
def reqC10W : Request := ⟨none, none, some "555", some "12a", some "tok1"⟩

/-! ## Theorems -/

/-- Claim C3 counterexample: the request `reqC3W` carries the URL query
`?token=` — the `token` parameter is present with value `""` — and that
token fails validation (no such token exists).  The claim demands an
immediate `None`; the code instead treats the falsy token string as
absent, consults the opaque-token cookie and authenticates `sW`. -/
theorem C3_counterexample :
    reqC3W.url_token = some "" ∧
    (validate_token dbW "" 100).1 = none ∧
    (get_current_student (some "BOT") vNoneW dbW 100 reqC3W).1 = some sW :=
  ⟨rfl, rfl, rfl⟩

/-- Claim C3 (amended): for every request whose URL query contains a
non-empty token that fails validation (not found, inactive, expired, or
bound to an inactive student), `get_current_student` returns `None`
immediately, never consulting the signed payload, the telegram session
cookies, or the opaque-token cookie. -/
theorem C3_invalid_url_token_terminal (bot_token : Option String)
    (validate : String → Option ValidatedUser) (db : DB) (now : Nat)
    (req : Request) (t : String) (hurl : req.url_token = some t)
    (hne : t ≠ "") (hval : (validate_token db t now).1 = none) :
    (get_current_student bot_token validate db now req).1 = none := by
  have hb : (t != "") = true := bne_iff_ne.mpr hne
  rcases hv2 : validate_token db t now with ⟨o, db2⟩
  rw [hv2] at hval
  simp only at hval
  subst hval
  simp only [get_current_student, hurl, hb, if_true, hv2]

/-- Witness for `C3_invalid_url_token_terminal`: the invalid non-empty
URL token "zzz" yields `None` although a valid cookie token is present. -/
theorem C3_witness :
    (get_current_student (some "BOT") vNoneW dbW 100 reqC3bW).1 = none :=
  C3_invalid_url_token_terminal (some "BOT") vNoneW dbW 100 reqC3bW "zzz"
    rfl (by decide) rfl

/-- Claim C8 counterexample: `require_csrf` accepts a request whose
`X-Telegram-Init-Data` header is the unverifiable string "junk"
(`dict(parse_qsl("junk")) = {}`, so the payload fails HMAC validation
for lack of a hash field — shown on the real validator with concrete
primitives) and which carries no `X-Requested-With` header.  The guard
never validates the signature, contradicting the claim's "one that
passes HMAC validation". -/
theorem C8_counterexample :
    require_csrf (some "junk") none = true ∧
    validate_init_data hmacW jsonNoneW "BOT" [] 100 = none ∧
    (none : Option String) ≠ some "XMLHttpRequest" :=
  ⟨rfl, rfl, by decide⟩

/-- Claim C8 (amended): `require_csrf` accepts a request iff the
`X-Telegram-Init-Data` header is present and non-empty (its contents are
never validated by this guard) or the `X-Requested-With` header equals
`XMLHttpRequest`; with neither it rejects with the 403 error. -/
theorem C8_presence_only (i x : Option String) :
    require_csrf i x = true ↔
      ((∃ s, i = some s ∧ s ≠ "") ∨ x = some "XMLHttpRequest") := by
  cases i with
  | none => simp [require_csrf]
  | some s =>
    simp only [require_csrf, Bool.or_eq_true, bne_iff_ne, beq_iff_eq,
      Option.some.injEq]
    constructor
    · rintro (h | h)
      · exact Or.inl ⟨s, rfl, h⟩
      · exact Or.inr h
    · rintro (⟨s2, hs2, h⟩ | h)
      · cases hs2; exact Or.inl h
      · exact Or.inr h

/-- Claim C10: with no URL token and no signed payload, a present
`telegram_id` cookie whose companion `selected_student_id` cookie is
absent or not all digits makes `get_current_student` skip the
cookie-pair rule and fall through to the opaque-token cookie, which can
authenticate. -/
theorem C10_dangling_telegram_cookie (bot_token : Option String)
    (validate : String → Option ValidatedUser) (db : DB) (now : Nat)
    (req : Request) (ctid : String)
    (hurl : req.url_token = none) (hinit : req.init_data = none)
    (htg : req.cookie_telegram_id = some ctid)
    (hsel : req.cookie_selected_student_id = none ∨
      ∃ s, req.cookie_selected_student_id = some s ∧
        s.data.all Char.isDigit = false) :
    get_current_student bot_token validate db now req
      = resolve_cookie_token db now req
    ∧ ∀ t s, req.cookie_access_token = some t → t ≠ "" →
        (validate_token db t now).1 = some s →
        (get_current_student bot_token validate db now req).1 = some s := by
  have hsess : get_telegram_session req = (some ctid, none) := by
    rcases hsel with h | ⟨s, hs, hdig⟩
    · simp [get_telegram_session, htg, h]
    · simp [get_telegram_session, htg, hs, hdig]
  have hmain : get_current_student bot_token validate db now req
      = resolve_cookie_token db now req := by
    simp only [get_current_student, hurl, resolve_after_url, hinit,
      cookie_fallback, hsess]
  refine ⟨hmain, fun t s ht hne hv => ?_⟩
  have hb : (t != "") = true := bne_iff_ne.mpr hne
  rw [hmain]
  rcases hv2 : validate_token db t now with ⟨o, db2⟩
  rw [hv2] at hv
  simp only at hv
  subst hv
  simp only [resolve_cookie_token, ht, hb, if_true, hv2]

/-- Witness for `C10_dangling_telegram_cookie`: the dangling cookie pair
of `reqC10W` does not block the valid `access_token` cookie. -/
theorem C10_witness :
    (get_current_student (some "BOT") vNoneW dbW 100 reqC10W).1 = some sW :=
  (C10_dangling_telegram_cookie (some "BOT") vNoneW dbW 100 reqC10W "555"
    rfl rfl rfl (Or.inr ⟨"12a", rfl, by decide⟩)).2 "tok1" sW rfl
    (by decide) rfl

/-- Finding an element whose matches are untouched by a filter is
unaffected by that filter. -/
lemma find?_filter_of_imp {α : Type} (l : List α) (p q : α → Bool)
    (h : ∀ x, p x = true → q x = true) :
    (l.filter q).find? p = l.find? p := by
  induction l with
  | nil => rfl
  | cons a l ih =>
    by_cases hq : q a = true
    · rw [List.filter_cons_of_pos hq]
      by_cases hp : p a = true
      · rw [List.find?_cons_of_pos _ hp, List.find?_cons_of_pos _ hp]
      · rw [List.find?_cons_of_neg _ hp, List.find?_cons_of_neg _ hp, ih]
    · rw [List.filter_cons_of_neg hq]
      have hp : ¬p a = true := fun hpa => hq (h a hpa)
      rw [List.find?_cons_of_neg _ hp, ih]

/-- Popping the `hash` key does not change the `auth_date` lookup. -/
lemma parse_auth_date_filter_hash (params : List (String × String)) :
    parse_auth_date (params.filter (fun p => p.1 != "hash"))
      = parse_auth_date params := by
  unfold parse_auth_date lookupParam
  rw [find?_filter_of_imp]
  intro x hx
  have hk : x.1 = "auth_date" := by simpa using hx
  rw [hk]
  decide

/-- Claim C5: every payload whose auth_date is stale
(`current_time - auth_date > max_age`) is rejected by
`validate_init_data`, for every choice of the HMAC primitive and the
JSON decoder — in particular regardless of whether the supplied hash
equals the recomputed signature.  The staleness check precedes the
signature computation in the code. -/
theorem C5_stale_auth_date_rejected (hmacHex : String → String → String)
    (jsonLoads : String → Option PyUser) (bot_token : String)
    (params : List (String × String)) (now max_age d : Int)
    (hd : parse_auth_date params = some d)
    (hstale : max_age < now - d) :
    validate_init_data hmacHex jsonLoads bot_token params now max_age
      = none := by
  unfold validate_init_data
  cases hh : lookupParam params "hash" with
  | none => rfl
  | some rh =>
    have hpf : parse_auth_date (params.filter (fun p => p.1 != "hash"))
        = some d := by rw [parse_auth_date_filter_hash]; exact hd
    simp only [hpf, hstale, if_true]

/-- Witness for `C5_stale_auth_date_rejected`: a payload signed at time 9
presented at time 4000 with the default 3600 s window is rejected. -/
theorem C5_witness :
    validate_init_data hmacW jsonNoneW "BOT"
      [("hash", "h"), ("auth_date", "9")] 4000 3600 = none :=
  C5_stale_auth_date_rejected hmacW jsonNoneW "BOT"
    [("hash", "h"), ("auth_date", "9")] 4000 3600 9 (by decide) (by decide)

/-- When the keys of a list are distinct, `find?` on key-plus-predicate
characterises membership. -/
lemma find_key_unique {α β : Type} [BEq β] [LawfulBEq β] (key : α → β)
    (p : α → Bool) (l : List α) (hl : (l.map key).Nodup) (k : β) (x : α) :
    l.find? (fun a => key a == k && p a) = some x
      ↔ (x ∈ l ∧ key x = k ∧ p x = true) := by
  induction l with
  | nil => simp
  | cons a l ih =>
    rw [List.map_cons, List.nodup_cons] at hl
    obtain ⟨ha, hl⟩ := hl
    cases hpa : (key a == k && p a) with
    | true =>
      simp only [List.find?_cons, hpa, Option.some.injEq]
      obtain ⟨hak, hpa2⟩ := Bool.and_eq_true .. |>.mp hpa
      have hak : key a = k := by simpa using hak
      constructor
      · rintro rfl
        exact ⟨List.mem_cons_self a l, hak, hpa2⟩
      · rintro ⟨hmem, hkx, hpx⟩
        rcases List.mem_cons.mp hmem with rfl | hmem
        · rfl
        · exact absurd (by rw [hak, ← hkx]; exact List.mem_map_of_mem key hmem) ha
    | false =>
      simp only [List.find?_cons, hpa]
      rw [ih hl]
      constructor
      · rintro ⟨hm, hk, hp⟩
        exact ⟨List.mem_cons_of_mem a hm, hk, hp⟩
      · rintro ⟨hm, hk, hp⟩
        rcases List.mem_cons.mp hm with rfl | hm
        · simp [hk, hp] at hpa
        · exact ⟨hm, hk, hp⟩

/-- Characterisation of a successful `validate_token` resolution in terms
of the two underlying `find?` queries. -/
lemma validate_token_eq_some {db : DB} {t : String} {now : Nat} {s : Student} :
    (validate_token db t now).1 = some s
      ↔ ∃ tok,
          db.access_tokens.find? (fun k => k.token == t && k.is_active) = some tok
          ∧ tok.is_expired now = false
          ∧ db.students.find? (fun x => x.id == tok.student_id && x.is_active)
              = some s := by
  unfold validate_token
  constructor
  · intro h
    split at h
    · simp at h
    next tok hf =>
      split at h
      next he => simp at h
      next he =>
        split at h
        · simp at h
        next s0 hs =>
          simp only [Option.some.injEq] at h
          exact ⟨tok, hf, Bool.not_eq_true _ ▸ eq_false_of_ne_true he, h ▸ hs⟩
  · rintro ⟨tok, hf, he, hs⟩
    simp [hf, he, hs]

/-- Every student returned by `validate_token` is active. -/
lemma validate_token_active {db : DB} {t : String} {now : Nat} {s : Student}
    (h : (validate_token db t now).1 = some s) : s.is_active = true := by
  obtain ⟨tok, _, _, hs⟩ := validate_token_eq_some.mp h
  have := List.find?_some hs
  exact (Bool.and_eq_true .. |>.mp this).2

/-- A true `studentActive` check means the looked-up student row is
active. -/
lemma studentActive_getStudent {db : DB} {sid : Nat} {s : Student}
    (hact : studentActive db sid = true) (hget : getStudent db sid = some s) :
    s.is_active = true := by
  unfold studentActive at hact
  rw [hget] at hact
  exact hact

/-- Members of `activeAuths` pass the active-student check. -/
lemma mem_activeAuths_studentActive {db : DB} {tid : String}
    {ta : TelegramAuth} (h : ta ∈ activeAuths db tid) :
    studentActive db ta.student_id = true := by
  have := (List.mem_filter.mp h).2
  exact (Bool.and_eq_true .. |>.mp this).2

/-- Every student returned by the validated-payload step is active. -/
lemma resolve_validated_user_active {db : DB} {now : Nat} {req : Request}
    {user : ValidatedUser} {s : Student}
    (h : (resolve_validated_user db now req user).1 = some s) :
    s.is_active = true := by
  simp only [resolve_validated_user] at h
  split at h
  · simp at h
  next hne =>
    set A := activeAuths db user.telegram_id with hA
    split at h
    next s0 hs0 =>
      simp only [Option.some.injEq] at h
      subst h
      have hsel : ∃ ta ∈ A, getStudent db ta.student_id = some s0 := by
        split at hs0
        · obtain ⟨ta, hta, hget⟩ := Option.bind_eq_some.mp hs0
          exact ⟨ta, List.mem_of_mem_head? (hta ▸ rfl), hget⟩
        · split at hs0
          next s1 hs1 =>
            simp only [Option.some.injEq] at hs0
            subst hs0
            split at hs1
            next n =>
              split at hs1
              · obtain ⟨ta, hta, hget⟩ := Option.bind_eq_some.mp hs1
                exact ⟨ta, List.mem_of_find?_eq_some hta, hget⟩
              · simp at hs1
            · simp at hs1
          next hs1 =>
            obtain ⟨ta, hta, hget⟩ := Option.bind_eq_some.mp hs0
            exact ⟨ta, List.mem_of_mem_head? (hta ▸ rfl), hget⟩
      obtain ⟨ta, hmem, hget⟩ := hsel
      exact studentActive_getStudent (mem_activeAuths_studentActive (hA ▸ hmem)) hget
    · simp at h

/-- Every student returned by the cookie steps is active. -/
lemma cookie_fallback_active {db : DB} {now : Nat} {req : Request}
    {s : Student} (h : (cookie_fallback db now req).1 = some s) :
    s.is_active = true := by
  have hstep4 : ∀ (h4 : (resolve_cookie_token db now req).1 = some s),
      s.is_active = true := by
    intro h4
    unfold resolve_cookie_token at h4
    split at h4
    next t ht =>
      split at h4
      · split at h4
        next s0 db2 hv =>
          simp only [Option.some.injEq] at h4
          have hv1 : (validate_token db t now).1 = some s0 := by rw [hv]
          exact h4 ▸ validate_token_active hv1
        next db2 hv => simp at h4
      · simp at h4
    · simp at h4
  unfold cookie_fallback at h
  split at h
  next ctid sel =>
    split at h
    · split at h
      next ta hta =>
        split at h
        next hact =>
          exact studentActive_getStudent hact h
        · simp at h
      · simp at h
    · exact hstep4 h
  · exact hstep4 h

/-- Every student resolved by `get_current_student` is active: an
inactive student is unreachable through every credential path. -/
lemma get_current_student_active {bot_token : Option String}
    {validate : String → Option ValidatedUser} {db : DB} {now : Nat}
    {req : Request} {s : Student}
    (h : (get_current_student bot_token validate db now req).1 = some s) :
    s.is_active = true := by
  have hafter : ∀ (h2 : (resolve_after_url bot_token validate db now req).1 = some s),
      s.is_active = true := by
    intro h2
    unfold resolve_after_url at h2
    split at h2
    next raw =>
      split at h2
      · unfold resolve_init_data at h2
        split at h2
        · split at h2
          next user hv => exact resolve_validated_user_active h2
          next hv => exact cookie_fallback_active h2
        · exact cookie_fallback_active h2
      · exact cookie_fallback_active h2
    · exact cookie_fallback_active h2
  unfold get_current_student at h
  split at h
  next t ht =>
    split at h
    · split at h
      next s0 db2 hv =>
        simp only [Option.some.injEq] at h
        have hv1 : (validate_token db t now).1 = some s0 := by rw [hv]
        exact h ▸ validate_token_active hv1
      next db2 hv => simp at h
    · exact hafter h
  · exact hafter h

/-- In a student table with distinct ids, the active-filtered lookup
never returns an inactive member's id. -/
lemma find_id_active_none {l : List Student} {s : Student}
    (hmem : s ∈ l) (hinact : s.is_active = false)
    (hnodup : (l.map (fun x => x.id)).Nodup) :
    l.find? (fun x => x.id == s.id && x.is_active) = none := by
  rw [List.find?_eq_none]
  intro x hx hpx
  obtain ⟨hid, hact⟩ := Bool.and_eq_true .. |>.mp hpx
  have hid2 : x.id = s.id := by simpa using hid
  have hxs : x = s := List.inj_on_of_nodup_map hnodup hx hmem hid2
  rw [hxs, hinact] at hact
  exact Bool.false_ne_true hact

/-- Claim C2: a student with `is_active = false` is unreachable through
every credential path.  First conjunct: `validate_token` rejects every
token string whose (active) token row is bound to the inactive student —
even a valid, unexpired, active token.  Second conjunct: no combination
of URL token, signed payload, session cookies or token cookie makes
`get_current_student` return that student. -/
theorem C2_inactive_student_unreachable (db : DB) (s : Student) (now : Nat)
    (hmem : s ∈ db.students) (hinact : s.is_active = false)
    (hnodup : (db.students.map (fun x => x.id)).Nodup) :
    (∀ t tok,
        db.access_tokens.find? (fun k => k.token == t && k.is_active) = some tok →
        tok.student_id = s.id → (validate_token db t now).1 = none)
    ∧ ∀ bot_token validate req,
        (get_current_student bot_token validate db now req).1 ≠ some s := by
  constructor
  · intro t tok hf hbind
    cases hres : (validate_token db t now).1 with
    | none => rfl
    | some s2 =>
      obtain ⟨tok2, hf2, he2, hs2⟩ := validate_token_eq_some.mp hres
      rw [hf] at hf2
      injection hf2 with htk
      subst htk
      rw [hbind, find_id_active_none hmem hinact hnodup] at hs2
      exact absurd hs2 (by simp)
  · intro bt v req hcontra
    have hact := get_current_student_active hcontra
    rw [hact] at hinact
    exact absurd hinact (by simp)

/-- Witness for `C2_inactive_student_unreachable`: in `dbW` the student
`sInactW` is deactivated; its valid, active, never-expiring token
"tokin" does not resolve, and the request carrying a token cookie does
not resolve to `sInactW`. -/
theorem C2_witness :
    (validate_token dbW "tokin" 100).1 = none
    ∧ (get_current_student (some "BOT") vNoneW dbW 100 reqC1W).1
        ≠ some sInactW :=
  ⟨(C2_inactive_student_unreachable dbW sInactW 100 (by decide) rfl
      (by decide)).1 "tokin" tokInactStudentW rfl rfl,
   (C2_inactive_student_unreachable dbW sInactW 100 (by decide) rfl
      (by decide)).2 (some "BOT") vNoneW reqC1W⟩

/-- Claim C4: with unique token strings and unique student ids,
`validate_token` returns a student iff an active, unexpired token row
with that exact string is bound to that active student; a token expired
in the past never resolves even while `is_active = true`; a token with
null expiry bound to an active student resolves on every call,
regardless of the current time. -/
theorem C4_validate_token_spec (db : DB) (now : Nat) (t : String)
    (htok : (db.access_tokens.map (fun k => k.token)).Nodup)
    (hsid : (db.students.map (fun x => x.id)).Nodup) :
    (∀ s, (validate_token db t now).1 = some s ↔
      (s ∈ db.students ∧ s.is_active = true ∧
       ∃ tok ∈ db.access_tokens, tok.token = t ∧ tok.is_active = true ∧
         tok.is_expired now = false ∧ tok.student_id = s.id))
    ∧ (∀ tok ∈ db.access_tokens, tok.token = t → tok.is_active = true →
        ∀ e, tok.expires_at = some e → e < now →
        (validate_token db t now).1 = none)
    ∧ (∀ tok ∈ db.access_tokens, tok.token = t → tok.is_active = true →
        tok.expires_at = none →
        ∀ s ∈ db.students, s.id = tok.student_id → s.is_active = true →
        ∀ now2, (validate_token db t now2).1 = some s) := by
  have main : ∀ (now2 : Nat) (s : Student),
      (validate_token db t now2).1 = some s ↔
        (s ∈ db.students ∧ s.is_active = true ∧
         ∃ tok ∈ db.access_tokens, tok.token = t ∧ tok.is_active = true ∧
           tok.is_expired now2 = false ∧ tok.student_id = s.id) := by
    intro now2 s
    rw [validate_token_eq_some]
    constructor
    · rintro ⟨tok, hf, he, hs⟩
      obtain ⟨hmemtok, htt, hta⟩ :=
        (find_key_unique (fun k => k.token) (fun k => k.is_active)
          db.access_tokens htok t tok).mp hf
      obtain ⟨hmems, hsid2, hsact⟩ :=
        (find_key_unique (fun x => x.id) (fun x => x.is_active)
          db.students hsid tok.student_id s).mp hs
      exact ⟨hmems, hsact, tok, hmemtok, htt, hta, he, hsid2.symm⟩
    · rintro ⟨hmems, hsact, tok, hmemtok, htt, hta, he, hstid⟩
      exact ⟨tok,
        (find_key_unique (fun k => k.token) (fun k => k.is_active)
          db.access_tokens htok t tok).mpr ⟨hmemtok, htt, hta⟩, he,
        (find_key_unique (fun x => x.id) (fun x => x.is_active)
          db.students hsid tok.student_id s).mpr ⟨hmems, hstid.symm, hsact⟩⟩
  refine ⟨main now, ?_, ?_⟩
  · intro tok hmemtok htt hta e hee hlt
    cases hres : (validate_token db t now).1 with
    | none => rfl
    | some s =>
      exfalso
      obtain ⟨-, -, tok2, hmem2, htt2, -, hexp2, -⟩ := (main now s).mp hres
      have heq : tok2 = tok :=
        List.inj_on_of_nodup_map htok hmem2 hmemtok (by rw [htt2, htt])
      subst heq
      simp only [AccessToken.is_expired, hee, decide_eq_false_iff_not] at hexp2
      omega
  · intro tok hmemtok htt hta hexp s hmems hsid2 hsact now2
    refine (main now2 s).mpr ⟨hmems, hsact, tok, hmemtok, htt, hta, ?_, hsid2.symm⟩
    simp [AccessToken.is_expired, hexp]

/-- Witness for `C4_validate_token_spec`: in `dbW` the never-expiring
token "tok1" resolves `sW` even at time 999999, while "tokexp" (expiry
10, still `is_active = true`) does not resolve at time 100. -/
theorem C4_witness :
    (validate_token dbW "tok1" 999999).1 = some sW
    ∧ (validate_token dbW "tokexp" 100).1 = none :=
  ⟨(C4_validate_token_spec dbW 0 "tok1" (by decide) (by decide)).2.2
      tokW (by decide) rfl rfl rfl sW (by decide) rfl rfl 999999,
   (C4_validate_token_spec dbW 100 "tokexp" (by decide) (by decide)).2.1
      tokExpW (by decide) rfl rfl 10 rfl (by decide)⟩

/-- Claim C1 counterexample: the request `reqC1W` has no URL token and
carries the signed payload "junk", which fails validation under the real
validator (its parse `dict(parse_qsl("junk"))` is empty, so the hash
field is missing), with the bot token configured.  The claim demands
`None` with no cookie consultation; the code instead falls through to
the cookie steps and authenticates `sW` from the `access_token`
cookie. -/
theorem C1_counterexample :
    emptyPayloadValidator "junk" = none
    ∧ reqC1W.url_token = none
    ∧ reqC1W.init_data = some "junk"
    ∧ (get_current_student (some "BOT") emptyPayloadValidator dbW 100
        reqC1W).1 = some sW :=
  ⟨rfl, rfl, rfl, rfl⟩

/-- Claim C1 (amended): when a request with no URL token carries a signed
payload that fails validation (bot token configured), resolution does not
terminate as Unauthenticated; the skipped `if user_data:` block makes it
fall through to the telegram-session-cookie and opaque-token-cookie steps,
which may authenticate.  Only a successfully validated payload matching no
active binding terminates immediately. -/
theorem C1_invalid_payload_falls_through (bot_token : Option String)
    (validate : String → Option ValidatedUser) (db : DB) (now : Nat)
    (req : Request) (raw : String)
    (hurl : req.url_token = none) (hinit : req.init_data = some raw)
    (hraw : raw ≠ "") (hcfg : bot_configured bot_token = true)
    (hval : validate raw = none) :
    get_current_student bot_token validate db now req
      = cookie_fallback db now req := by
  have hb : (raw != "") = true := bne_iff_ne.mpr hraw
  simp only [get_current_student, hurl, resolve_after_url, hinit, hb,
    if_true, resolve_init_data, hcfg, hval]

/-- Witness for `C1_invalid_payload_falls_through` at the concrete
counterexample data. -/
theorem C1_witness :
    get_current_student (some "BOT") emptyPayloadValidator dbW 100 reqC1W
      = cookie_fallback dbW 100 reqC1W :=
  C1_invalid_payload_falls_through (some "BOT") emptyPayloadValidator dbW
    100 reqC1W "junk" rfl rfl (by decide) rfl rfl

/-- Claim C7: a successfully validated payload whose telegram id matches
no active binding with an active student resolves Unauthenticated in the
middleware (which does not touch pending links), and the
`/auth/telegram` endpoint reports not-linked and records the
`PendingTelegramLink`: created with attempt counter 1 and both attempt
timestamps set to now when absent, otherwise the existing row gets its
attempt counter incremented and its last-attempt timestamp and telegram
metadata refreshed. -/
theorem C7_unmatched_payload_pending (bot_token : Option String)
    (validate : String → Option ValidatedUser) (db : DB) (now : Nat)
    (req : Request) (raw : String) (user : ValidatedUser)
    (ip : Option String)
    (hurl : req.url_token = none) (hinit : req.init_data = some raw)
    (hraw : raw ≠ "") (hcfg : bot_configured bot_token = true)
    (hval : validate raw = some user)
    (hzero : activeAuths db user.telegram_id = []) :
    (get_current_student bot_token validate db now req).1 = none
    ∧ (telegram_auth bot_token validate db now ip (some raw)).1
        = TgAuthResult.notLinked
    ∧ (db.pending_links.find? (fun p => p.telegram_id == user.telegram_id)
          = none →
        (telegram_auth bot_token validate db now ip (some raw)).2.pending_links
          = db.pending_links ++
            [{ id := next_pending_id db,
               telegram_id := user.telegram_id,
               telegram_username := user.username,
               telegram_first_name := user.first_name,
               telegram_last_name := user.last_name,
               first_attempt_at := now,
               last_attempt_at := now,
               attempt_count := 1,
               ip_address := ip }])
    ∧ (∀ p0,
        db.pending_links.find? (fun p => p.telegram_id == user.telegram_id)
          = some p0 →
        (telegram_auth bot_token validate db now ip (some raw)).2.pending_links
          = update_first (fun p => p.telegram_id == user.telegram_id)
              (fun p =>
                { p with
                    last_attempt_at := now,
                    attempt_count := p.attempt_count + 1,
                    telegram_username := user.username,
                    telegram_first_name := user.first_name,
                    telegram_last_name := user.last_name })
              db.pending_links) := by
  have hb : (raw != "") = true := bne_iff_ne.mpr hraw
  have hbe : (raw == "") = false := by
    cases hx : raw == "" with
    | false => rfl
    | true => exact absurd (by simpa using hx) hraw
  refine ⟨?_, ?_, ?_, ?_⟩
  · simp only [get_current_student, hurl, resolve_after_url, hinit, hb,
      if_true, resolve_init_data, hcfg, hval, resolve_validated_user,
      hzero, List.isEmpty_nil, if_true]
  · simp [telegram_auth, hbe, hcfg, hval, hzero]
  · intro hfind
    simp [telegram_auth, hbe, hcfg, hval, hzero, hfind]
  · intro p0 hfind
    simp [telegram_auth, hbe, hcfg, hval, hzero, hfind]

/-- Witness for `C7_unmatched_payload_pending`: in the binding-free
database `dbPW` the validated payload for telegram id "555" resolves to
`None` and creates the pending link row. -/
theorem C7_witness :
    (get_current_student (some "BOT") vOKW dbPW 42 reqNoSelW).1 = none
    ∧ (telegram_auth (some "BOT") vOKW dbPW 42 (some "1.2.3.4")
        (some "good")).2.pending_links
      = [{ id := 1, telegram_id := "555", telegram_username := none,
           telegram_first_name := none, telegram_last_name := none,
           first_attempt_at := 42, last_attempt_at := 42,
           attempt_count := 1, ip_address := some "1.2.3.4" }] := by
  obtain ⟨h1, h2, h3, h4⟩ := C7_unmatched_payload_pending (some "BOT") vOKW
    dbPW 42 reqNoSelW "good" ⟨"555", none, none, none, 0⟩ (some "1.2.3.4")
    rfl rfl (by decide) rfl rfl rfl
  refine ⟨h1, ?_⟩
  rw [h3 rfl]
  rfl

/-- Reading back a just-assigned per-client list. -/
lemma getReqs_setReqs (st : RateLimiterState) (ip : String) (l : List Int) :
    getReqs (setReqs st ip l) ip = l := by
  simp [getReqs, setReqs, List.find?_cons]

/-- While every recorded and every incoming timestamp lie within one
60-second window and capacity is not yet reached, each call passes and
appends its timestamp. -/
lemma rl_run_within_window (cap : Nat) (ip : String) :
    ∀ (ts : List Int) (st : RateLimiterState),
      (∀ a ∈ getReqs st ip, ∀ b ∈ ts, b - a < 60) →
      (∀ a ∈ ts, ∀ b ∈ ts, b - a < 60) →
      (getReqs st ip).length + ts.length ≤ cap →
      rl_results cap ip ts st = List.replicate ts.length true
      ∧ getReqs (rl_run cap ip ts st) ip = getReqs st ip ++ ts := by
  intro ts
  induction ts with
  | nil =>
    intro st h1 h2 h3
    exact ⟨rfl, by simp [rl_run]⟩
  | cons t ts ih =>
    intro st h1 h2 h3
    have hpr : (getReqs st ip).filter (fun x => decide (x > t - 60))
        = getReqs st ip := by
      rw [List.filter_eq_self]
      intro a ha
      have := h1 a ha t (by simp)
      simp only [decide_eq_true_eq]
      omega
    have hlt : ¬ cap ≤ (getReqs st ip).length := by
      simp only [List.length_cons] at h3
      omega
    have hc : check_rate_limit cap st ip t
        = (true, setReqs st ip (getReqs st ip ++ [t])) := by
      simp only [check_rate_limit, hpr]
      rw [if_neg hlt]
    have hst : getReqs (check_rate_limit cap st ip t).2 ip
        = getReqs st ip ++ [t] := by
      rw [hc, getReqs_setReqs]
    obtain ⟨ihres, ihreqs⟩ := ih (check_rate_limit cap st ip t).2
      (by
        rw [hst]
        intro a ha b hb
        rcases List.mem_append.mp ha with ha2 | ha2
        · exact h1 a ha2 b (List.mem_cons_of_mem t hb)
        · have hat : a = t := by simpa using ha2
          rw [hat]
          exact h2 t (List.mem_cons_self t ts) b (List.mem_cons_of_mem t hb))
      (by
        intro a ha b hb
        exact h2 a (List.mem_cons_of_mem t ha) b (List.mem_cons_of_mem t hb))
      (by
        rw [hst]
        simp only [List.length_append, List.length_cons, List.length_nil]
          at h3 ⊢
        omega)
    have hc1 : (check_rate_limit cap st ip t).1 = true := by rw [hc]
    constructor
    · simp only [rl_results, hc1, List.length_cons, List.replicate_succ,
        ihres]
    · simp only [rl_run]
      rw [ihreqs, hst]
      simp

/-- Claim C9: from an empty limiter, a client's `capacity` calls inside
one rolling 60-second window all pass; a further call still inside the
window raises the 429 throttle; and once all recorded timestamps are 60
or more seconds old, the window is empty again, so the next call passes
with the full capacity available (exactly one slot now used). -/
theorem C9_rate_limiter (cap : Nat) (hcap : 0 < cap) (ip : String)
    (ts : List Int) (tnext tf : Int) (hlen : ts.length = cap)
    (hwin : ∀ a ∈ ts, ∀ b ∈ ts, b - a < 60)
    (hnext : ∀ a ∈ ts, tnext - a < 60)
    (hage : ∀ a ∈ ts, 60 ≤ tf - a) :
    rl_results cap ip ts RateLimiterState.empty = List.replicate cap true
    ∧ (check_rate_limit cap (rl_run cap ip ts RateLimiterState.empty) ip
        tnext).1 = false
    ∧ (check_rate_limit cap (rl_run cap ip ts RateLimiterState.empty) ip
        tf).1 = true
    ∧ getReqs (check_rate_limit cap (rl_run cap ip ts
        RateLimiterState.empty) ip tf).2 ip = [tf] := by
  have hempty : getReqs RateLimiterState.empty ip = [] := rfl
  obtain ⟨hres, hreqs⟩ := rl_run_within_window cap ip ts
    RateLimiterState.empty (by rw [hempty]; intro a ha; cases ha)
    hwin (by rw [hempty]; simpa using hlen.le)
  rw [hempty, List.nil_append] at hreqs
  have hprn : (getReqs (rl_run cap ip ts RateLimiterState.empty) ip).filter
      (fun x => decide (x > tnext - 60)) = ts := by
    rw [hreqs, List.filter_eq_self]
    intro a ha
    have := hnext a ha
    simp only [decide_eq_true_eq]
    omega
  have hprf : (getReqs (rl_run cap ip ts RateLimiterState.empty) ip).filter
      (fun x => decide (x > tf - 60)) = [] := by
    rw [hreqs, List.filter_eq_nil_iff]
    intro a ha
    have := hage a ha
    simp only [decide_eq_true_eq]
    omega
  refine ⟨hlen ▸ hres, ?_, ?_, ?_⟩
  · simp only [check_rate_limit, hprn]
    rw [if_pos (by omega)]
  · simp only [check_rate_limit, hprf]
    rw [if_neg (by simp; omega)]
  · simp only [check_rate_limit, hprf]
    rw [if_neg (by simp; omega)]
    simp [getReqs_setReqs]

/-- Witness for `C9_rate_limiter` with capacity 2: calls at times 0 and
10 pass, a call at 20 is throttled, and a call at 100 passes with the
window reset. -/
theorem C9_witness :
    rl_results 2 "c" [0, 10] RateLimiterState.empty = [true, true]
    ∧ (check_rate_limit 2 (rl_run 2 "c" [0, 10] RateLimiterState.empty)
        "c" 20).1 = false
    ∧ (check_rate_limit 2 (rl_run 2 "c" [0, 10] RateLimiterState.empty)
        "c" 100).1 = true
    ∧ getReqs (check_rate_limit 2 (rl_run 2 "c" [0, 10]
        RateLimiterState.empty) "c" 100).2 "c" = [100] := by
  have h := C9_rate_limiter 2 (by decide) "c" [0, 10] 20 100 rfl
    (by decide) (by decide) (by decide)
  simpa using h

/-- Pointwise-equal predicates find the same element. -/
lemma find?_congr_pred {α : Type} {p q : α → Bool} (l : List α)
    (h : ∀ x, p x = q x) : l.find? p = l.find? q := by
  induction l with
  | nil => rfl
  | cons a l ih => simp [List.find?_cons, h a, ih]

/-- A true `studentActive` check is exactly an active row behind the
lookup. -/
lemma studentActive_iff {db : DB} {sid : Nat} :
    studentActive db sid = true ↔
      ∃ s, getStudent db sid = some s ∧ s.is_active = true := by
  unfold studentActive
  cases h : getStudent db sid with
  | none => simp
  | some s => simp

/-- The student row found by `getStudent` carries the looked-up id. -/
lemma getStudent_id {db : DB} {sid : Nat} {s : Student}
    (h : getStudent db sid = some s) : s.id = sid := by
  have := List.find?_some h
  simpa using this

/-- `touch_auth` leaves the students table unchanged. -/
lemma studentActive_touch (db : DB) (i now2 sid : Nat) :
    studentActive (touch_auth db i now2) sid = studentActive db sid := rfl

/-- `touch_auth` leaves the students table unchanged. -/
lemma getStudent_touch (db : DB) (i now2 sid : Nat) :
    getStudent (touch_auth db i now2) sid = getStudent db sid := rfl

/-- `touch_auth` maps the binding list pointwise and preserves every
field the binding filters read, so the active bindings after the
bookkeeping write are the bookkept originals in the same order. -/
lemma activeAuths_touch (db : DB) (i now2 : Nat) (tid : String) :
    activeAuths (touch_auth db i now2) tid
      = (activeAuths db tid).map
          (fun ta => if ta.id == i then { ta with last_auth_at := now2 }
            else ta) := by
  show (db.telegram_auths.map
      (fun ta => if ta.id == i then { ta with last_auth_at := now2 }
        else ta)).filter
      (fun ta => ta.telegram_id == tid && ta.is_active
        && studentActive (touch_auth db i now2) ta.student_id)
    = (db.telegram_auths.filter
        (fun ta => ta.telegram_id == tid && ta.is_active
          && studentActive db ta.student_id)).map
        (fun ta => if ta.id == i then { ta with last_auth_at := now2 }
          else ta)
  rw [List.filter_map]
  congr 1
  apply List.filter_congr
  intro ta _
  simp only [Function.comp_apply, studentActive_touch]
  by_cases h : (ta.id == i) = true
  · simp [h]
  · simp [h]

/-- Computation of the validated-payload step when at least two bindings
match and the selection cookie matches none of them: the first binding
(creation order) is selected, its student returned, and its
`last_auth_at` stamped. -/
lemma resolve_validated_user_pick_first (db2 : DB) (now2 : Nat)
    (req : Request) (user : ValidatedUser) (a : TelegramAuth)
    (rest : List TelegramAuth) (s : Student)
    (hA : activeAuths db2 user.telegram_id = a :: rest)
    (hrest : rest ≠ [])
    (hno : ∀ n, (get_telegram_session req).2 = some n → n ≠ 0 →
      (a :: rest).find? (fun x => x.student_id == n) = none)
    (hget : getStudent db2 a.student_id = some s) :
    resolve_validated_user db2 now2 req user
      = (some s, touch_auth db2 a.id now2) := by
  have hfind_s : (a :: rest).find? (fun x => x.student_id == s.id)
      = some a := List.find?_cons_of_pos _ (by simp [getStudent_id hget])
  simp only [resolve_validated_user, hA]
  cases hsel : (get_telegram_session req).2 with
  | none => simp [hrest, hget, hfind_s]
  | some n =>
    by_cases hn : n = 0
    · subst hn
      simp [hrest, hget, hfind_s]
    · simp [hrest, hn, hno n hsel hn, hget, hfind_s]

/-- Claim C6: when a validated payload's telegram id matches two or more
active bindings with active students, the selection cookie wins when it
names a matched student; otherwise (cookie absent, malformed, zero, or
naming a non-matched student) the first match in creation order is
selected — and with no matching selection cookie the same student is
returned again by a repeated resolution on the updated session state. -/
theorem C6_multi_binding_selection (bot_token : Option String)
    (validate : String → Option ValidatedUser) (db : DB) (now : Nat)
    (req : Request) (raw : String) (user : ValidatedUser)
    (hurl : req.url_token = none) (hinit : req.init_data = some raw)
    (hraw : raw ≠ "") (hcfg : bot_configured bot_token = true)
    (hval : validate raw = some user)
    (hmulti : 2 ≤ (activeAuths db user.telegram_id).length) :
    (∀ n, (get_telegram_session req).2 = some n → n ≠ 0 →
      ∀ ta ∈ activeAuths db user.telegram_id, ta.student_id = n →
      ∃ s, getStudent db n = some s
        ∧ (get_current_student bot_token validate db now req).1 = some s)
    ∧ ((∀ n, (get_telegram_session req).2 = some n → n ≠ 0 →
          (activeAuths db user.telegram_id).find?
            (fun ta => ta.student_id == n) = none) →
      ∃ a s, (activeAuths db user.telegram_id).head? = some a
        ∧ getStudent db a.student_id = some s
        ∧ (get_current_student bot_token validate db now req).1 = some s
        ∧ ∀ now2,
            (get_current_student bot_token validate
              (get_current_student bot_token validate db now req).2 now2
              req).1 = some s) := by
  have hb : (raw != "") = true := bne_iff_ne.mpr hraw
  have hgcs : ∀ (db2 : DB) (now2 : Nat),
      get_current_student bot_token validate db2 now2 req
        = resolve_validated_user db2 now2 req user := by
    intro db2 now2
    simp only [get_current_student, hurl, resolve_after_url, hinit, hb,
      if_true, resolve_init_data, hcfg, hval]
  obtain ⟨a2, rest2, hA⟩ : ∃ a2 rest2,
      activeAuths db user.telegram_id = a2 :: rest2 := by
    cases h : activeAuths db user.telegram_id with
    | nil => rw [h] at hmulti; simp at hmulti
    | cons x xs => exact ⟨x, xs, rfl⟩
  have hmulti2 : 2 ≤ rest2.length + 1 := by
    have h2 := hA ▸ hmulti
    simpa using h2
  have hlen1 : ((a2 :: rest2).length == 1) = false := by
    simp only [List.length_cons, beq_eq_false_iff_ne, ne_eq]
    omega
  have hrest : rest2 ≠ [] := by
    intro h
    rw [h] at hmulti2
    simp at hmulti2
  constructor
  · intro n hsel hn0 ta hta htasid
    obtain ⟨ta2, hta2⟩ : ∃ ta2, (activeAuths db user.telegram_id).find?
        (fun x => x.student_id == n) = some ta2 := by
      have hsome : ((activeAuths db user.telegram_id).find?
          (fun x => x.student_id == n)).isSome = true := by
        rw [List.find?_isSome]
        exact ⟨ta, hta, by simp [htasid]⟩
      exact Option.isSome_iff_exists.mp hsome
    have hta2sid : ta2.student_id = n := by
      simpa using List.find?_some hta2
    have hact : studentActive db n = true := by
      have hm := mem_activeAuths_studentActive (List.mem_of_find?_eq_some hta2)
      rwa [hta2sid] at hm
    obtain ⟨s, hs, hsact⟩ := studentActive_iff.mp hact
    refine ⟨s, hs, ?_⟩
    rw [hgcs db now]
    rw [hA] at hta2
    simp only [resolve_validated_user, hA]
    simp [hrest, hsel, hn0, hta2, hta2sid, hs]
  · intro hno
    have hamem : a2 ∈ activeAuths db user.telegram_id := by
      rw [hA]; exact List.mem_cons_self a2 rest2
    have hact := mem_activeAuths_studentActive hamem
    obtain ⟨s, hs, hsact⟩ := studentActive_iff.mp hact
    have hno2 := hno
    rw [hA] at hno2
    have hcall1 : get_current_student bot_token validate db now req
        = (some s, touch_auth db a2.id now) := by
      rw [hgcs db now]
      exact resolve_validated_user_pick_first db now req user a2 rest2 s
        hA hrest hno2 hs
    refine ⟨a2, s, by rw [hA]; rfl, hs, by rw [hcall1], ?_⟩
    intro now2
    rw [hcall1]
    rw [hgcs (touch_auth db a2.id now) now2]
    have hA2 : activeAuths (touch_auth db a2.id now) user.telegram_id
        = { a2 with last_auth_at := now } ::
          rest2.map (fun ta => if ta.id == a2.id then
            { ta with last_auth_at := now } else ta) := by
      rw [activeAuths_touch, hA]
      simp
    have hrestm : rest2.map (fun ta => if ta.id == a2.id then
        { ta with last_auth_at := now } else ta) ≠ [] := by
      simpa using hrest
    have hnomap : ∀ n, (get_telegram_session req).2 = some n → n ≠ 0 →
        ({ a2 with last_auth_at := now } ::
          rest2.map (fun ta => if ta.id == a2.id then
            { ta with last_auth_at := now } else ta)).find?
          (fun x => x.student_id == n) = none := by
      intro n hsel hn
      have hmap : ({ a2 with last_auth_at := now } ::
          rest2.map (fun ta => if ta.id == a2.id then
            { ta with last_auth_at := now } else ta))
          = (a2 :: rest2).map (fun ta => if ta.id == a2.id then
            { ta with last_auth_at := now } else ta) := by
        simp
      have hcong : (a2 :: rest2).find?
          ((fun x => x.student_id == n) ∘ (fun ta => if ta.id == a2.id then
            { ta with last_auth_at := now } else ta))
          = (a2 :: rest2).find? (fun x => x.student_id == n) := by
        apply find?_congr_pred
        intro x
        by_cases hx : (x.id == a2.id) = true
        · simp [Function.comp, hx]
        · simp [Function.comp, hx]
      rw [hmap, List.find?_map, hcong, hno2 n hsel hn]
      rfl
    have hget2 : getStudent (touch_auth db a2.id now) a2.student_id
        = some s := by
      rw [getStudent_touch]
      exact hs
    rw [resolve_validated_user_pick_first (touch_auth db a2.id now) now2
      req user { a2 with last_auth_at := now }
      (rest2.map (fun ta => if ta.id == a2.id then
        { ta with last_auth_at := now } else ta)) s hA2 hrestm hnomap hget2]

/-- Witness for `C6_multi_binding_selection` on `dbMW`, where telegram id
"555" is bound to students 1 (`sW`, created first) and 2 (`sBobW`): the
selection cookie "2" picks `sBobW`; with no selection cookie the
first-created binding's student `sW` is picked, and again on the repeated
call over the updated session state. -/
theorem C6_witness :
    (get_current_student (some "BOT") vOKW dbMW 50 reqSelBobW).1
      = some sBobW
    ∧ (get_current_student (some "BOT") vOKW dbMW 50 reqNoSelW).1 = some sW
    ∧ ∀ now2, (get_current_student (some "BOT") vOKW
        (get_current_student (some "BOT") vOKW dbMW 50 reqNoSelW).2 now2
        reqNoSelW).1 = some sW := by
  refine ⟨?_, ?_⟩
  · obtain ⟨s, hs, hres⟩ := (C6_multi_binding_selection (some "BOT") vOKW
      dbMW 50 reqSelBobW "good" ⟨"555", none, none, none, 0⟩ rfl rfl
      (by decide) rfl rfl (by decide)).1 2 rfl (by decide) ta2W (by decide)
      rfl
    have hv : (get_current_student (some "BOT") vOKW dbMW 50 reqSelBobW).1
        = some sBobW := rfl
    rw [hres] at hv
    injection hv with hv2
    rw [hv2] at hres
    exact hres
  · obtain ⟨a, s, hhead, hget, hres1, hres2⟩ :=
      (C6_multi_binding_selection (some "BOT") vOKW dbMW 50 reqNoSelW
        "good" ⟨"555", none, none, none, 0⟩ rfl rfl (by decide) rfl rfl
        (by decide)).2
        (fun n hsel hn =>
          Option.noConfusion (show (none : Option Nat) = some n from hsel))
    have hv : (get_current_student (some "BOT") vOKW dbMW 50 reqNoSelW).1
        = some sW := rfl
    rw [hres1] at hv
    injection hv with hv2
    rw [hv2] at hres1 hres2
    exact ⟨hres1, hres2⟩

end StudentHistory
